import Mathlib

set_option linter.unusedVariables false

/-!
Verification of the caller-side logic of the azure-genai-fundamentals
notebooks: the tool-call fulfillment loop of
04-azure-ai-agents-action-tools.ipynb and the RAG retrieval pipeline of
02-rag.ipynb, embedded shallowly.  Remote services (run polling, search,
chat completion, embeddings) are modelled as oracles / scripted response
sequences; the locally executed code is translated function by function.
-/

namespace AzureGenAI

/-! ## Python json.dumps (default settings: ensure_ascii=True,
separators (", ", ": ")), restricted to the JSON values this code
produces: strings and string-keyed objects. -/

def hexDigit (n : Nat) : Char :=
  if n < 10 then Char.ofNat (48 + n) else Char.ofNat (87 + n)

/-- A \uXXXX escape with four lowercase hex digits, as produced by
json.dumps with ensure_ascii=True. -/
def uEscape (n : Nat) : String :=
  "\\u" ++ String.mk [hexDigit (n / 4096 % 16), hexDigit (n / 256 % 16),
                      hexDigit (n / 16 % 16), hexDigit (n % 16)]

/-- Escape of one character inside a JSON string literal, following
CPython json.dumps with ensure_ascii=True: the two-character short
escapes, \uXXXX for other control characters and for every character
above U+007E, surrogate pairs beyond the BMP. -/
def pyEscapeChar (c : Char) : String :=
  if c = '"' then "\\\""
  else if c = '\\' then "\\\\"
  else if c = '\n' then "\\n"
  else if c = '\r' then "\\r"
  else if c = '\t' then "\\t"
  else if c = Char.ofNat 8 then "\\b"
  else if c = Char.ofNat 12 then "\\f"
  else if c.toNat < 32 then uEscape c.toNat
  else if c.toNat ≤ 126 then String.mk [c]
  else if c.toNat ≤ 65535 then uEscape c.toNat
  else uEscape (55296 + (c.toNat - 65536) / 1024) ++
       uEscape (56320 + (c.toNat - 65536) % 1024)

/-- A JSON string literal, quoted and escaped as by json.dumps. -/
def pyQuote (s : String) : String :=
  "\"" ++ String.join (s.toList.map pyEscapeChar) ++ "\""

mutual
/-- JSON values produced by this code: strings and objects. -/
inductive JsonVal : Type where
  | str (s : String)
  | obj (fields : JsonFields)
/-- Ordered fields of a JSON object (Python dicts keep insertion order). -/
inductive JsonFields : Type where
  | nil
  | cons (key : String) (val : JsonVal) (rest : JsonFields)
end

mutual
/-- json.dumps with default arguments. -/
def JsonVal.dumps : JsonVal → String
  | .str s => pyQuote s
  | .obj fs => "\x7b" ++ JsonFields.dumpsList fs ++ "\x7d"
/-- Comma-separated field list of an object, with the default
", " item separator and ": " key separator of json.dumps. -/
def JsonFields.dumpsList : JsonFields → String
  | .nil => ""
  | .cons k v .nil => pyQuote k ++ ": " ++ JsonVal.dumps v
  | .cons k v (.cons k2 v2 rest) =>
      pyQuote k ++ ": " ++ JsonVal.dumps v ++ ", " ++
        JsonFields.dumpsList (.cons k2 v2 rest)
end

/-- Build an object field list out of an association list of strings. -/
def fieldsOfPairs : List (String × String) → JsonFields
  | [] => .nil
  | (k, v) :: rest => .cons k (.str v) (fieldsOfPairs rest)

/-! ## The registered action-tool functions
(04-azure-ai-agents-action-tools.ipynb, cell 6). -/

/-- Mock weather table of fetch_weather. -/
def mock_weather_data : List (String × String) :=
  [("New York", "Sunny, 25°C"),
   ("London", "Cloudy, 18°C"),
   ("Tokyo", "Rainy, 22°C"),
   ("Stockholm", "Snowy, -5°C")]

/-- fetch_weather(location): look the location up in the mock table,
default message when absent, and return json.dumps of the one-field
object with key weather. -/
def fetch_weather (location : String) : String :=
  let weather := (mock_weather_data.lookup location).getD
    "Weather data not available for this location."
  JsonVal.dumps (.obj (.cons "weather" (.str weather) .nil))

/-- Mock network table of check_network_status. -/
def network_data : List (String × List (String × String)) :=
  [("Stockholm",
     [("5G", "Operational - 98.7% coverage"),
      ("4G", "Operational - 99.9% coverage"),
      ("VoLTE", "Operational")]),
   ("Gothenburg",
     [("5G", "Partial outage - 85.3% coverage"),
      ("4G", "Operational - 99.5% coverage"),
      ("VoLTE", "Operational")]),
   ("New York",
     [("5G", "Operational - 92.1% coverage"),
      ("4G", "Operational - 99.7% coverage"),
      ("VoLTE", "Maintenance in progress")]),
   ("London",
     [("5G", "Operational - 90.5% coverage"),
      ("4G", "Operational - 99.8% coverage"),
      ("VoLTE", "Operational")])]

/-- Python truthiness of an optional string argument: None and the
empty string are falsy. -/
def pyTruthyOptStr : Option String → Bool
  | none => false
  | some s => !s.isEmpty

/-- check_network_status(location, service_type=None): unknown location
gives an error object; a truthy service_type selects one service (or an
error object when the service is absent at that location); otherwise all
services of the location are returned.  Timestamps are the hard-coded
string of the source. -/
def check_network_status (location : String) (service_type : Option String) :
    String :=
  match network_data.lookup location with
  | none =>
      JsonVal.dumps (.obj (.cons "error"
        (.str "Location not found in network database") .nil))
  | some services =>
      if pyTruthyOptStr service_type then
        let st := (service_type.getD "")
        match services.lookup st with
        | some status =>
            JsonVal.dumps (.obj (.cons "location" (.str location)
              (.cons "service" (.str st)
              (.cons "status" (.str status)
              (.cons "timestamp" (.str "2025-04-04T10:30:00Z") .nil)))))
        | none =>
            JsonVal.dumps (.obj (.cons "error"
              (.str ("Service type " ++ st ++ " not available in " ++ location))
              .nil))
      else
        JsonVal.dumps (.obj (.cons "location" (.str location)
          (.cons "services" (.obj (fieldsOfPairs services))
          (.cons "timestamp" (.str "2025-04-04T10:30:00Z") .nil))))

/-! ## The tool-call data model
(azure.ai.projects.models, as observed by the loop of cells 16 and 22). -/

/-- A pending tool call delivered in a requires_action poll.  A
RequiredFunctionToolCall carries the call id, the function name, and the
argument object.  Modelled from the spec: the SDK decodes the
JSON-encoded argument payload into the named function keyword arguments
before invocation; the decoded object (string-valued fields, as in every
call of this repository) is carried directly.  Any other kind of
required tool call is represented by otherToolCall with its id. -/
inductive ToolCall : Type where
  | requiredFunctionToolCall (id : String) (name : String)
      (arguments : List (String × String))
  | otherToolCall (id : String)
  deriving DecidableEq

/-- The id of a tool call. -/
def ToolCall.id : ToolCall → String
  | .requiredFunctionToolCall i _ _ => i
  | .otherToolCall i => i

/-- Whether the call is an instance of RequiredFunctionToolCall. -/
def ToolCall.isFunctionCall : ToolCall → Bool
  | .requiredFunctionToolCall _ _ _ => true
  | .otherToolCall _ => false

/-- A (call id, string output) pair submitted back to the service. -/
structure ToolOutput : Type where
  tool_call_id : String
  output : String
  deriving DecidableEq

/-- The required_action attribute of a polled run: absent, a
SubmitToolOutputsAction carrying the pending tool calls, or an action of
some other type (the isinstance check of the loop distinguishes the
three). -/
inductive RequiredAction : Type where
  | noAction
  | submitToolOutputsAction (tool_calls : List ToolCall)
  | otherAction
  deriving DecidableEq

/-- The caller-visible slice of a polled run: its status string and its
required_action attribute. -/
structure Run : Type where
  status : String
  required_action : RequiredAction
  deriving DecidableEq

/-- A Python value returned by a registered function: a str, or any
other json-serializable value. -/
inductive PyValue : Type where
  | pyStr (s : String)
  | pyVal (j : JsonVal)

/-- A registered function raises (left) or returns a value (right). -/
def FnResult : Type := Except String PyValue

/-- The local function registry: function name to callable, as built by
FunctionTool(functions=agent_functions).  Modelled from the spec: the
registry maps each unique function name to a locally executable
capability taking the decoded argument object. -/
def Registry : Type := List (String × (List (String × String) → FnResult))

/-- Modelled from the spec: FunctionTool.execute (vendor SDK, not in the
repository) looks the named function up in the registry and invokes it
with the decoded arguments; a lookup miss raises, and an invocation
exception propagates. -/
def executeToolCall (reg : Registry) : ToolCall → FnResult
  | .requiredFunctionToolCall _ name args =>
      match reg.lookup name with
      | some f => f args
      | none => .error ("Unknown function: " ++ name)
  | .otherToolCall i => .error ("Not a function tool call: " ++ i)

/-- Coercion of a successful result before recording the ToolOutput:
a str passes through unchanged, any other value goes through
json.dumps (cell 16: if not isinstance(output, str)). -/
def coerceOutput : PyValue → String
  | .pyStr s => s
  | .pyVal j => j.dumps

/-- Look the first argument value up by keyword name. -/
def kwLookup (args : List (String × String)) (k : String) : Option String :=
  args.lookup k

/-- Modelled from the spec: binding of the decoded argument object to
the keyword parameters of fetch_weather(location).  A missing location
key or an unexpected key raises (TypeError), as Python keyword binding
would. -/
def fetch_weather_tool (args : List (String × String)) : FnResult :=
  if args.all (fun p => p.1 == "location") then
    match kwLookup args "location" with
    | some loc => .ok (.pyStr (fetch_weather loc))
    | none => .error "TypeError: fetch_weather missing argument location"
  else .error "TypeError: fetch_weather got an unexpected keyword argument"

/-- Modelled from the spec: binding of the decoded argument object to
the keyword parameters of check_network_status(location, service_type);
service_type defaults to None when absent. -/
def check_network_status_tool (args : List (String × String)) : FnResult :=
  if args.all (fun p => p.1 == "location" || p.1 == "service_type") then
    match kwLookup args "location" with
    | some loc => .ok (.pyStr (check_network_status loc (kwLookup args "service_type")))
    | none => .error "TypeError: check_network_status missing argument location"
  else .error "TypeError: check_network_status got an unexpected keyword argument"

/-- The registry of the notebook: agent_functions = \x7bfetch_weather,
check_network_status\x7d wrapped by FunctionTool. -/
def agent_functions : Registry :=
  [("fetch_weather", fetch_weather_tool),
   ("check_network_status", check_network_status_tool)]

/-! ## The fulfillment loop as an event-emitting state machine
(cells 16 and 22; both cells contain the identical loop). -/

/-- Observable effects of one execution of the loop, in order: each
get_run poll with the status it returned, each print of Executing tool
call, each per-call error log, the cancel_run call, and each
submit_tool_outputs_to_run call with its batch. -/
inductive Event : Type where
  | polled (status : String)
  | executed (id : String)
  | errorLogged (id : String) (msg : String)
  | cancelledRun
  | submitted (outputs : List ToolOutput)
  deriving DecidableEq

/-- The for tool_call in tool_calls body: a non-RequiredFunctionToolCall
is passed over; otherwise the call is executed inside try/except — on
success the coerced output is appended, on exception the error is
printed and the call contributes nothing. -/
def processToolCalls (reg : Registry) : List ToolCall → List Event × List ToolOutput
  | [] => ([], [])
  | tc :: rest =>
    match tc with
    | .otherToolCall _ => processToolCalls reg rest
    | .requiredFunctionToolCall i name args =>
      let p := processToolCalls reg rest
      match executeToolCall reg (.requiredFunctionToolCall i name args) with
      | .ok v => (.executed i :: p.1, ⟨i, coerceOutput v⟩ :: p.2)
      | .error e => (.executed i :: .errorLogged i e :: p.1, p.2)

/-- One iteration body after the poll: when the status is
requires_action and required_action is a SubmitToolOutputsAction, an
empty call list cancels the run and breaks; otherwise the calls are
processed and a non-empty collected batch is submitted in one call.
Returns the events of the iteration and whether the loop breaks. -/
def processIteration (reg : Registry) (r : Run) : List Event × Bool :=
  if r.status == "requires_action" then
    match r.required_action with
    | .submitToolOutputsAction tcs =>
        if tcs.isEmpty then ([.cancelledRun], true)
        else
          let p := processToolCalls reg tcs
          (p.1 ++ (if p.2.isEmpty then [] else [.submitted p.2]), false)
    | _ => ([], false)
  else ([], false)

/-- The while run.status in [queued, in_progress, requires_action]
loop, driven by the script of successive get_run responses.  Returns
the emitted events and the final run (none when the script is exhausted
while the loop would still poll). -/
def runLoop (reg : Registry) : Run → List Run → List Event × Option Run
  | run, [] =>
      if ["queued", "in_progress", "requires_action"].contains run.status
      then ([], none) else ([], some run)
  | run, r :: rest =>
      if ["queued", "in_progress", "requires_action"].contains run.status then
        let p := processIteration reg r
        if p.2 then (.polled r.status :: p.1, some r)
        else
          let q := runLoop reg r rest
          (.polled r.status :: (p.1 ++ q.1), q.2)
      else ([], some run)

/-- The batches passed to submit_tool_outputs_to_run, in order. -/
def submittedBatches : List Event → List (List ToolOutput)
  | [] => []
  | .submitted outs :: rest => outs :: submittedBatches rest
  | _ :: rest => submittedBatches rest

/-- Whether processing this call raised an exception in the loop body
(a call that is not a RequiredFunctionToolCall is never invoked, so
nothing raises for it). -/
def callRaised (reg : Registry) (tc : ToolCall) : Bool :=
  match tc with
  | .requiredFunctionToolCall i name args =>
      match executeToolCall reg (.requiredFunctionToolCall i name args) with
      | .ok _ => false
      | .error _ => true
  | .otherToolCall _ => false

/-- The per-poll segmentation of a loop execution: each polled run
paired with the events of its own iteration, in poll order (the
recursion mirrors runLoop: stop after a breaking iteration or on a
non-pollable status). -/
def pollSegments (reg : Registry) : Run → List Run → List (Run × List Event)
  | run, [] => []
  | run, r :: rest =>
      if (["queued", "in_progress", "requires_action"].contains run.status) then
        if (processIteration reg r).2 then [(r, (processIteration reg r).1)]
        else (r, (processIteration reg r).1) :: pollSegments reg r rest
      else []

/-! ## Python str()/repr rendering used by str.format
(02-rag.ipynb passes the message list and the document list into
str.format placeholders, which renders them through str()). -/

/-- Escape of one character inside a Python string repr with quote
character q: backslash, the quote, and the common control characters
(the notebooks only format printable text). -/
def pyReprEscape (q : Char) (c : Char) : String :=
  if c = '\\' then "\\\\"
  else if c = q then "\\" ++ String.mk [q]
  else if c = '\n' then "\\n"
  else if c = '\r' then "\\r"
  else if c = '\t' then "\\t"
  else String.mk [c]

/-- CPython repr of a str: single-quoted, switching to double quotes
when the text contains a single quote but no double quote. -/
def pyReprStr (s : String) : String :=
  let q := if s.toList.contains '\x27' && !(s.toList.contains '"')
           then '"' else '\x27'
  String.mk [q] ++ String.join (s.toList.map (pyReprEscape q)) ++ String.mk [q]

/-- A chat-protocol message dict \x7b"role": ..., "content": ...\x7d as
passed into chat_with_documents. -/
structure PyMessage : Type where
  role : String
  content : String
  deriving DecidableEq

/-- repr of one message dict (Python dicts print with repr keys and
values in insertion order). -/
def pyReprMessage (m : PyMessage) : String :=
  "\x7b\x27role\x27: " ++ pyReprStr m.role ++
  ", \x27content\x27: " ++ pyReprStr m.content ++ "\x7d"

/-- str() of the message list, as rendered into the
conversation_history placeholder. -/
def pyReprMessages (msgs : List PyMessage) : String :=
  "[" ++ String.intercalate ", " (msgs.map pyReprMessage) ++ "]"

/-- A retrieved document dict with the four selected fields. -/
structure Document : Type where
  id : String
  content : String
  title : String
  url : String
  deriving DecidableEq

/-- repr of one document dict. -/
def pyReprDocument (d : Document) : String :=
  "\x7b\x27id\x27: " ++ pyReprStr d.id ++
  ", \x27content\x27: " ++ pyReprStr d.content ++
  ", \x27title\x27: " ++ pyReprStr d.title ++
  ", \x27url\x27: " ++ pyReprStr d.url ++ "\x7d"

/-- str() of the document list, as rendered into the retrieved_context
placeholder. -/
def pyReprDocuments (docs : List Document) : String :=
  "[" ++ String.intercalate ", " (docs.map pyReprDocument) ++ "]"

/-! ## json.loads for the intent response
(02-rag.ipynb reads json.loads(content)["intent"]; the prompt pins the
response to a flat one-field JSON object of strings). -/

def braceOpenChar : Char := Char.ofNat 123

def braceCloseChar : Char := Char.ofNat 125

/-- Skip JSON whitespace. -/
def skipWs : List Char → List Char
  | [] => []
  | c :: rest =>
      if c = ' ' || c = '\n' || c = '\t' || c = '\r' then skipWs rest
      else c :: rest

/-- Value of one hexadecimal digit. -/
def hexVal (c : Char) : Option Nat :=
  if '0' ≤ c ∧ c ≤ '9' then some (c.toNat - 48)
  else if 'a' ≤ c ∧ c ≤ 'f' then some (c.toNat - 87)
  else if 'A' ≤ c ∧ c ≤ 'F' then some (c.toNat - 55)
  else none

/-- The character denoted by a two-character JSON escape. -/
def jsonEscChar (c : Char) : Option Char :=
  if c = '"' then some '"'
  else if c = '\\' then some '\\'
  else if c = '/' then some '/'
  else if c = 'n' then some '\n'
  else if c = 't' then some '\t'
  else if c = 'r' then some '\r'
  else if c = 'b' then some (Char.ofNat 8)
  else if c = 'f' then some (Char.ofNat 12)
  else none

/-- Parse the body of a JSON string literal (the opening quote already
consumed), returning the decoded characters and the rest of the
input. -/
def parseJStringChars : List Char → Option (List Char × List Char)
  | [] => none
  | c :: rest =>
      if c = '"' then some ([], rest)
      else if c = '\\' then
        match rest with
        | [] => none
        | e :: rest2 =>
            if e = 'u' then
              match rest2 with
              | a :: b :: c3 :: d :: rest3 =>
                  match hexVal a, hexVal b, hexVal c3, hexVal d with
                  | some x, some y, some z, some w =>
                      match parseJStringChars rest3 with
                      | some (cs, rem) =>
                          some (Char.ofNat (((x * 16 + y) * 16 + z) * 16 + w) :: cs, rem)
                      | none => none
                  | _, _, _, _ => none
              | _ => none
            else
              match jsonEscChar e with
              | some d =>
                  match parseJStringChars rest2 with
                  | some (cs, rem) => some (d :: cs, rem)
                  | none => none
              | none => none
      else
        match parseJStringChars rest with
        | some (cs, rem) => some (c :: cs, rem)
        | none => none

/-- Parse one key-value pair and the following field list; the input
starts at the opening quote of a key.  Fuel bounds the recursion by the
input length. -/
def parseFlatFields : Nat → List Char → Option (List (String × String) × List Char)
  | 0, _ => none
  | fuel + 1, input =>
      match input with
      | '"' :: restK =>
          match parseJStringChars restK with
          | some (keyChars, afterKey) =>
              match skipWs afterKey with
              | ':' :: afterColon =>
                  match skipWs afterColon with
                  | '"' :: restV =>
                      match parseJStringChars restV with
                      | some (valChars, afterVal) =>
                          let pair := (String.mk keyChars, String.mk valChars)
                          match skipWs afterVal with
                          | ',' :: afterComma =>
                              match parseFlatFields fuel (skipWs afterComma) with
                              | some (pairs, rem) => some (pair :: pairs, rem)
                              | none => none
                          | c :: rem =>
                              if c = braceCloseChar then some ([pair], rem)
                              else none
                          | [] => none
                      | none => none
                  | _ => none
              | _ => none
          | none => none
      | _ => none

/-- Modelled from the spec: json.loads (Python stdlib, external to the
repository) restricted to the flat string-valued objects this code
consumes ("Respond strictly with the following JSON format" pins the
intent payload to one); none models the ValueError raised on any other
input, and a parsed object is read as an association list. -/
def jsonLoadsFlat (s : String) : Option (List (String × String)) :=
  match skipWs s.toList with
  | c :: rest =>
      if c = braceOpenChar then
        match skipWs rest with
        | c2 :: rest2 =>
            if c2 = braceCloseChar then
              match skipWs rest2 with
              | [] => some []
              | _ => none
            else
              match parseFlatFields (c2 :: rest2).length (c2 :: rest2) with
              | some (pairs, rem) =>
                  match skipWs rem with
                  | [] => some pairs
                  | _ => none
              | none => none
        | [] => none
      else none
  | [] => none

/-! ## The RAG pipeline (02-rag.ipynb, cells 8, 10, 13, 15)
The remote clients (chat completions, embeddings, hybrid search) are
oracles; the pipeline is a pure function that records the remote calls
it makes, in order, next to the value it returns. -/

/-- INTENT_SYSTEM_PROMPT up to the conversation_history placeholder
(str.format turns the doubled braces of the source into single
ones). -/
def intentPromptPre : String :=
  "\n# Semantic Intent Clarification System\n\nYour task is to rephrase the user\x27s query into a concise, standalone phrase or sentence that clearly captures the semantic intent.  \nThe output will be used for semantic similarity retrieval, so it should fully represent the user\x27s information need.\n\nGuidelines:\n- Do not use conversational phrases (\"I want,\" \"Can you tell me,\" etc.).\n- Ensure clarity, completeness, and semantic accuracy.\n- Include related relevant concepts naturally to enhance semantic richness, if applicable.\n\nExample:\n- User Query: \"How do attention mechanisms work in transformer models?\"\n- Intent: \"Function and role of self-attention mechanisms in transformer architectures for NLP tasks\"\n\nConversation History:\n"

/-- INTENT_SYSTEM_PROMPT after the conversation_history placeholder. -/
def intentPromptPost : String :=
  "\n\nRespond strictly with the following JSON format:\n\x7b\"intent\": \"your clarified semantic query here\"\x7d\n"

/-- get_intent_system_message: the content of the SystemMessage built
by INTENT_SYSTEM_PROMPT.format(conversation_history=...). -/
def get_intent_system_message (conversation_history : String) : String :=
  intentPromptPre ++ conversation_history ++ intentPromptPost

/-- SYSTEM_PROMPT up to the retrieved_context placeholder. -/
def ragPromptPre : String :=
  "You are a helpful AI assistant that provides accurate information based on the retrieved context.\n\n### Retrieved Context:\n"

/-- SYSTEM_PROMPT after the retrieved_context placeholder. -/
def ragPromptPost : String :=
  "\n\n### Instructions:\n1. Answer questions based on the retrieved context above.\n2. If the context doesn\x27t contain the information needed, acknowledge the limitation.\n3. Do not make up information that is not supported by the context.\n4. Keep responses concise and focused on the user\x27s question.\n5. Format your answers using Markdown when appropriate (so we can render them using from IPython.display import display, Markdown).\n    5a. pay extra attention on formatting code blocks, lists, tables, and mathematical equations.\n6. When quoting directly from the context, use quotation marks.\n7. In terms of citation style please follow the Institute for Electrical and Electronics Engineers (IEEE):\n    7a. In-text citations should be in square brackets, e.g. [1], [2], etc.\n    7b. The reference list should be numbered in the order in which they appear in the text (make them clickable).\n    7c. Use the following format for references: [1] Author(s), \"Title,\" Journal, vol. X, no. Y, pp. Z-Z, Year. [Online]. Available: URL\n\nRemember: Only use information from the retrieved context to answer questions, and remember to cite sources properly.\n"

/-- get_completion_system_message: the content of the SystemMessage
built by SYSTEM_PROMPT.format(retrieved_context=...). -/
def get_completion_system_message (retrieved_context : String) : String :=
  ragPromptPre ++ retrieved_context ++ ragPromptPost

/-- Model names and index name read from the environment. -/
structure RagEnv : Type where
  chatModel : String
  embeddingModel : String
  searchIndexName : String

/-- One raw hit returned by the search service with the four selected
fields; searchScore stands for the retrieval metadata the projection
drops. -/
structure SearchHit : Type where
  id : String
  content : String
  title : String
  url : String
  searchScore : Nat
  deriving DecidableEq

/-- One remote request issued by the pipeline, with the payload fields
the code sets.  Messages are (role, content) pairs.  E is the embedding
vector type (opaque to the caller). -/
inductive RagCall (E : Type) : Type where
  | chatCompleteCall (model : String) (messages : List (String × String))
      (max_tokens : Option Nat)
  | embedCall (model : String) (input : String)
  | searchCall (index : String) (search_text : String) (vector : E)
      (k_nearest_neighbors : Nat) (fields : String) (top : Nat)

/-- Responses of the three remote services: the content of
choices[0].message of a chat completion, the vector data[0].embedding
of an embedding request, and the hit list of a search. -/
structure RagOracles (E : Type) : Type where
  chatContent : List (String × String) → String
  embedVector : String → E
  searchHits : String → E → Nat → List SearchHit

/-- get_documents(messages, top): ask the chat model for the clarified
intent (one system message rendering the conversation history), read
json.loads(content)["intent"], embed the rewritten query, then run one
hybrid search carrying both the rewritten text and the vector
(k_nearest_neighbors=50 over the text_vector field), and project each
hit to its four selected fields.  A json.loads failure or a missing
intent key raises, modelled by Except.error.  The notebook calls it
with the default top=3. -/
def get_documents (E : Type) (env : RagEnv) (o : RagOracles E)
    (messages : List PyMessage) (top : Nat) :
    Except String (List (RagCall E) × List Document) :=
  let intentMessages := [("system", get_intent_system_message (pyReprMessages messages))]
  let intentContent := o.chatContent intentMessages
  match (jsonLoadsFlat intentContent).bind (fun obj => obj.lookup "intent") with
  | none => .error ("intent extraction failed on: " ++ intentContent)
  | some enhanced_search_query =>
      let embedding := o.embedVector enhanced_search_query
      let hits := o.searchHits enhanced_search_query embedding top
      let documents := hits.map (fun h => Document.mk h.id h.content h.title h.url)
      .ok ([.chatCompleteCall env.chatModel intentMessages none,
            .embedCall env.embeddingModel enhanced_search_query,
            .searchCall env.searchIndexName enhanced_search_query embedding 50
              "text_vector" top],
           documents)

/-- chat-with-documents: retrieve documents (default top), build the
completion system message from the rendered document list, append one
UserMessage for the content of every incoming message, and make the
final generation call with max_tokens=1000, returning the content of
choices[0].message. -/
def chat_with_documents (E : Type) (env : RagEnv) (o : RagOracles E)
    (messages : List PyMessage) :
    Except String (List (RagCall E) × String) :=
  match get_documents E env o messages 3 with
  | .error e => .error e
  | .ok (calls, documents) =>
      let system_message := ("system", get_completion_system_message (pyReprDocuments documents))
      let formatted_messages := system_message :: messages.map (fun m => ("user", m.content))
      let response := o.chatContent formatted_messages
      .ok (calls ++ [.chatCompleteCall env.chatModel formatted_messages (some 1000)],
           response)

/-! ## Shapes: the control-flow skeleton of a trace, forgetting only
the business content of the serialized outputs. -/

/-- An event with the output payload replaced by its call id list. -/
inductive EventShape : Type where
  | polledS (status : String)
  | executedS (id : String)
  | errorLoggedS (id : String) (msg : String)
  | cancelledS
  | submittedS (ids : List String)
  deriving DecidableEq

/-- Forget the output strings of a submission, keep everything else. -/
def eventShape : Event → EventShape
  | .polled s => .polledS s
  | .executed i => .executedS i
  | .errorLogged i m => .errorLoggedS i m
  | .cancelledRun => .cancelledS
  | .submitted outs => .submittedS (outs.map ToolOutput.tool_call_id)

/-- The exception shape of executing one call against a registry: none
on success (whatever the value), or the raised message. -/
def execShape (reg : Registry) (tc : ToolCall) : Option String :=
  match executeToolCall reg tc with
  | .ok _ => none
  | .error e => some e

/-- A variant of the weather tool wrapper returning a different
business payload with identical exception behavior. -/
def fetch_weather_variant (args : List (String × String)) : FnResult :=
  if args.all (fun p => p.1 == "location") then
    match kwLookup args "location" with
    | some loc => .ok (.pyStr "variant weather payload")
    | none => .error "TypeError: fetch_weather missing argument location"
  else .error "TypeError: fetch_weather got an unexpected keyword argument"

/-- The notebook registry with fetch_weather swapped for the
variant. -/
def agent_functions_variant : Registry :=
  [("fetch_weather", fetch_weather_variant),
   ("check_network_status", check_network_status_tool)]

/-- Environment of the C9 witness. -/
def ragEnvW : RagEnv := ⟨"gpt-4o", "text-embedding-3-large", "myindex"⟩

/-- Oracles of the C9 witness: the chat model always answers with a
well-formed intent object, embeddings are a constant vector, search
returns one hit. -/
def ragOraclesW : RagOracles Nat :=
  ⟨fun _ => "\x7b\"intent\": \"llms versus diffusion models\"\x7d",
   fun _ => 7,
   fun _ _ _ => [⟨"d1", "content1", "title1", "url1", 3⟩]⟩

/-- A concrete requires_action run with one pending fetch_weather
call, used by concrete instantiations. -/
def runW : Run :=
  ⟨"requires_action", .submitToolOutputsAction
    [.requiredFunctionToolCall "call_w" "fetch_weather" [("location", "Stockholm")]]⟩

/-! ## Helper lemmas about the loop -/

/-- Processing a concatenation of call lists concatenates both the
event and the output lists. -/
theorem processToolCalls_append (reg : Registry) (xs ys : List ToolCall) :
    processToolCalls reg (xs ++ ys) =
      ((processToolCalls reg xs).1 ++ (processToolCalls reg ys).1,
       (processToolCalls reg xs).2 ++ (processToolCalls reg ys).2) := by
  induction xs with
  | nil => simp [processToolCalls]
  | cons tc rest ih =>
      cases tc with
      | otherToolCall i =>
          simpa [processToolCalls] using ih
      | requiredFunctionToolCall i n a =>
          simp only [List.cons_append, processToolCalls]
          cases h : executeToolCall reg (.requiredFunctionToolCall i n a) <;>
            simp [h, ih]

/-- submittedBatches distributes over event-list concatenation. -/
theorem submittedBatches_append (a b : List Event) :
    submittedBatches (a ++ b) = submittedBatches a ++ submittedBatches b := by
  induction a with
  | nil => rfl
  | cons e rest ih => cases e <;> simp [submittedBatches, ih]

/-- The per-call loop body never submits: submission happens only after
the whole batch is processed. -/
theorem processToolCalls_no_submit (reg : Registry) (tcs : List ToolCall) :
    submittedBatches (processToolCalls reg tcs).1 = [] := by
  induction tcs with
  | nil => rfl
  | cons tc rest ih =>
      cases tc with
      | otherToolCall i => simpa [processToolCalls] using ih
      | requiredFunctionToolCall i n a =>
          simp only [processToolCalls]
          cases h : executeToolCall reg (.requiredFunctionToolCall i n a) <;>
            simp [submittedBatches, h, ih]

/-- The ids of the collected outputs are exactly the ids of the
RequiredFunctionToolCall entries whose invocation did not raise, in
batch order. -/
theorem processToolCalls_ids (reg : Registry) (tcs : List ToolCall) :
    (processToolCalls reg tcs).2.map ToolOutput.tool_call_id =
      (tcs.filter (fun tc => tc.isFunctionCall && !callRaised reg tc)).map ToolCall.id := by
  induction tcs with
  | nil => rfl
  | cons tc rest ih =>
      cases tc with
      | otherToolCall i =>
          simpa [processToolCalls, ToolCall.isFunctionCall] using ih
      | requiredFunctionToolCall i n a =>
          simp only [processToolCalls]
          cases h : executeToolCall reg (.requiredFunctionToolCall i n a) <;>
            simp [h, callRaised, ToolCall.isFunctionCall, ToolCall.id, List.filter, ih]

/-- Every collected output id is the id of a call of the batch. -/
theorem processToolCalls_mem_ids (reg : Registry) (tcs : List ToolCall)
    (o : ToolOutput) (h : o ∈ (processToolCalls reg tcs).2) :
    o.tool_call_id ∈ tcs.map ToolCall.id := by
  induction tcs with
  | nil => simp [processToolCalls] at h
  | cons tc rest ih =>
      cases tc with
      | otherToolCall i =>
          simp only [processToolCalls] at h
          simpa [ToolCall.id] using Or.inr (ih h)
      | requiredFunctionToolCall i n a =>
          simp only [processToolCalls] at h
          cases hx : executeToolCall reg (.requiredFunctionToolCall i n a) with
          | ok v =>
              rw [hx] at h
              simp only [List.mem_cons] at h
              rcases h with h | h
              · subst h; simp [ToolCall.id]
              · simpa [ToolCall.id] using Or.inr (ih h)
          | error e =>
              rw [hx] at h
              simpa [ToolCall.id] using Or.inr (ih h)

/-- An event list contains a submission event exactly when the batch is
one of its submitted batches. -/
theorem submitted_mem_batches (evs : List Event) (outs : List ToolOutput)
    (h : Event.submitted outs ∈ evs) : outs ∈ submittedBatches evs := by
  induction evs with
  | nil => simp at h
  | cons e rest ih =>
      rcases List.mem_cons.1 h with h2 | h2
      · rw [← h2]; simp [submittedBatches]
      · have hm := ih h2
        cases e <;> simp [submittedBatches, hm]

/-- In an iteration of a requires_action run with a non-empty call
list, exactly the non-empty collected batch is submitted, in one call,
and nothing is submitted when nothing was collected. -/
theorem processIteration_submitted (reg : Registry) (r : Run) (tcs : List ToolCall)
    (h1 : r.status = "requires_action")
    (h2 : r.required_action = .submitToolOutputsAction tcs)
    (h3 : tcs ≠ []) :
    submittedBatches (processIteration reg r).1 =
      if (processToolCalls reg tcs).2.isEmpty then []
      else [(processToolCalls reg tcs).2] := by
  have hne : tcs.isEmpty = false := by
    cases tcs with
    | nil => exact absurd rfl h3
    | cons a b => rfl
  unfold processIteration
  rw [h2, h1]
  simp only [beq_self_eq_true, if_true, hne, Bool.false_eq_true, if_false,
    submittedBatches_append, processToolCalls_no_submit, List.nil_append]
  cases he : (processToolCalls reg tcs).2.isEmpty <;>
    simp [submittedBatches, he, submittedBatches_append, processToolCalls_no_submit]

/-- A submission event of an iteration identifies the batch: the run
was in requires_action with a SubmitToolOutputsAction, and the
submitted outputs are the batch collected over its calls. -/
theorem submitted_of_iteration (reg : Registry) (r : Run) (outs : List ToolOutput)
    (h : Event.submitted outs ∈ (processIteration reg r).1) :
    ∃ tcs, r.status = "requires_action" ∧
      r.required_action = .submitToolOutputsAction tcs ∧
      outs = (processToolCalls reg tcs).2 := by
  unfold processIteration at h
  by_cases hs : r.status == "requires_action"
  · rw [if_pos hs] at h
    cases ha : r.required_action with
    | submitToolOutputsAction tcs =>
        rw [ha] at h
        dsimp only at h
        by_cases hempty : tcs.isEmpty
        · rw [if_pos hempty] at h
          simp at h
        · rw [if_neg hempty] at h
          have hmem := submitted_mem_batches _ _ h
          rw [submittedBatches_append, processToolCalls_no_submit,
            List.nil_append] at hmem
          refine ⟨tcs, by simpa using hs, rfl, ?_⟩
          cases he : (processToolCalls reg tcs).2.isEmpty with
          | true => rw [he] at hmem; simp [submittedBatches] at hmem
          | false =>
              rw [he] at hmem
              simpa [submittedBatches] using hmem
    | noAction => rw [ha] at h; simp at h
    | otherAction => rw [ha] at h; simp at h
  · rw [if_neg hs] at h
    simp at h

/-- Batch processing under two registries of identical exception shape
yields the same event skeleton and the same answered call ids. -/
theorem processToolCalls_shape (reg1 reg2 : Registry)
    (h : ∀ tc, execShape reg1 tc = execShape reg2 tc) (tcs : List ToolCall) :
    (processToolCalls reg1 tcs).1.map eventShape =
      (processToolCalls reg2 tcs).1.map eventShape ∧
    (processToolCalls reg1 tcs).2.map ToolOutput.tool_call_id =
      (processToolCalls reg2 tcs).2.map ToolOutput.tool_call_id := by
  induction tcs with
  | nil => exact ⟨rfl, rfl⟩
  | cons tc rest ih =>
      cases tc with
      | otherToolCall i => simpa [processToolCalls] using ih
      | requiredFunctionToolCall i n a =>
          have hx := h (.requiredFunctionToolCall i n a)
          cases h1 : executeToolCall reg1 (.requiredFunctionToolCall i n a) with
          | ok v1 =>
              cases h2 : executeToolCall reg2 (.requiredFunctionToolCall i n a) with
              | ok v2 =>
                  simp [processToolCalls, h1, h2, eventShape, ih.1, ih.2]
              | error e2 => simp [execShape, h1, h2] at hx
          | error e1 =>
              cases h2 : executeToolCall reg2 (.requiredFunctionToolCall i n a) with
              | ok v2 => simp [execShape, h1, h2] at hx
              | error e2 =>
                  have he : e1 = e2 := by simpa [execShape, h1, h2] using hx
                  subst he
                  simp [processToolCalls, h1, h2, eventShape, ih.1, ih.2]

/-- One iteration under two registries of identical exception shape has
the same event skeleton and the same break decision. -/
theorem processIteration_shape (reg1 reg2 : Registry)
    (h : ∀ tc, execShape reg1 tc = execShape reg2 tc) (r : Run) :
    (processIteration reg1 r).1.map eventShape =
      (processIteration reg2 r).1.map eventShape ∧
    (processIteration reg1 r).2 = (processIteration reg2 r).2 := by
  unfold processIteration
  by_cases hs : r.status == "requires_action"
  · rw [if_pos hs, if_pos hs]
    cases ha : r.required_action with
    | submitToolOutputsAction tcs =>
        dsimp only
        by_cases hempty : tcs.isEmpty
        · rw [if_pos hempty, if_pos hempty]
          exact ⟨rfl, rfl⟩
        · rw [if_neg hempty, if_neg hempty]
          have hp := processToolCalls_shape reg1 reg2 h tcs
          have hlen : (processToolCalls reg1 tcs).2.length =
              (processToolCalls reg2 tcs).2.length := by
            have := congrArg List.length hp.2
            simpa using this
          have hemp : (processToolCalls reg1 tcs).2.isEmpty =
              (processToolCalls reg2 tcs).2.isEmpty := by
            cases hq1 : (processToolCalls reg1 tcs).2 with
            | nil =>
                cases hq2 : (processToolCalls reg2 tcs).2 with
                | nil => rfl
                | cons x xs => rw [hq1, hq2] at hlen; simp at hlen
            | cons x xs =>
                cases hq2 : (processToolCalls reg2 tcs).2 with
                | nil => rw [hq1, hq2] at hlen; simp at hlen
                | cons y ys => rfl
          refine ⟨?_, rfl⟩
          cases he : (processToolCalls reg2 tcs).2.isEmpty <;>
            · rw [he] at hemp
              simp [hemp, he, hp.1, eventShape, hp.2]
    | noAction => exact ⟨rfl, rfl⟩
    | otherAction => exact ⟨rfl, rfl⟩
  · rw [if_neg hs, if_neg hs]
    exact ⟨rfl, rfl⟩

/-- The iteration breaks exactly on a requires_action run carrying a
SubmitToolOutputsAction with no pending calls. -/
theorem processIteration_break (reg : Registry) (r : Run) :
    (processIteration reg r).2 = true ↔
      (r.status = "requires_action" ∧
       r.required_action = .submitToolOutputsAction []) := by
  unfold processIteration
  by_cases hs : r.status == "requires_action"
  · rw [if_pos hs]
    have hs2 : r.status = "requires_action" := by simpa using hs
    cases ha : r.required_action with
    | submitToolOutputsAction tcs =>
        dsimp only
        cases tcs with
        | nil => simp [hs2]
        | cons a b =>
            cases he : (processToolCalls reg (a :: b)).2.isEmpty <;> simp [hs2]
    | noAction => simp [hs2]
    | otherAction => simp [hs2]
  · rw [if_neg hs]
    have hs2 : ¬ r.status = "requires_action" := by simpa using hs
    simp [hs2]

/-! ## The claims -/

/-- Claim C1, counterexample.  The claim says the number of ToolOutputs
submitted in a requires_action iteration with a non-empty pending list
equals the number of tool calls of the batch whose invocation did not
raise.  A batch holding one call that is not a RequiredFunctionToolCall
refutes it: nothing was invoked, so nothing raised, yet nothing is
submitted — zero outputs against one non-raising call. -/
theorem claim_C1_counterexample :
    ¬ ((submittedBatches (processIteration agent_functions
          ⟨"requires_action", .submitToolOutputsAction [.otherToolCall "call_x"]⟩).1).flatten.length =
        (([ToolCall.otherToolCall "call_x"] : List ToolCall).filter
          (fun tc => !callRaised agent_functions tc)).length) := by
  decide

/-- Claim C1, amended: in every requires_action iteration with a
non-empty pending list, the submitted ToolOutputs are exactly (ids and
count) the RequiredFunctionToolCall entries of the batch whose
invocation did not raise an exception; failing calls are omitted, not
replaced with placeholders. -/
theorem claim_C1_outputs_match_successes (reg : Registry) (r : Run)
    (tcs : List ToolCall)
    (h1 : r.status = "requires_action")
    (h2 : r.required_action = .submitToolOutputsAction tcs)
    (h3 : tcs ≠ []) :
    (submittedBatches (processIteration reg r).1).flatten.map ToolOutput.tool_call_id =
      (tcs.filter (fun tc => tc.isFunctionCall && !callRaised reg tc)).map ToolCall.id ∧
    (submittedBatches (processIteration reg r).1).flatten.length =
      (tcs.filter (fun tc => tc.isFunctionCall && !callRaised reg tc)).length := by
  have hsub := processIteration_submitted reg r tcs h1 h2 h3
  have hjoin : (submittedBatches (processIteration reg r).1).flatten =
      (processToolCalls reg tcs).2 := by
    cases hq : (processToolCalls reg tcs).2 with
    | nil => rw [hsub, hq]; simp
    | cons x xs => rw [hsub, hq]; simp
  refine ⟨?_, ?_⟩
  · rw [hjoin, processToolCalls_ids]
  · rw [hjoin]
    have hlen := congrArg List.length (processToolCalls_ids reg tcs)
    simpa using hlen

/-- Witness for the amended claim C1 at a concrete batch: one
fetch_weather call that succeeds and one unknown function that
raises. -/
theorem claim_C1_witness :
    (submittedBatches (processIteration agent_functions
        ⟨"requires_action", .submitToolOutputsAction
          [.requiredFunctionToolCall "call_1" "fetch_weather" [("location", "Stockholm")],
           .requiredFunctionToolCall "call_2" "no_such_function" []]⟩).1).flatten.map
        ToolOutput.tool_call_id =
      (([ToolCall.requiredFunctionToolCall "call_1" "fetch_weather" [("location", "Stockholm")],
         .requiredFunctionToolCall "call_2" "no_such_function" []] : List ToolCall).filter
        (fun tc => tc.isFunctionCall && !callRaised agent_functions tc)).map ToolCall.id ∧
    (submittedBatches (processIteration agent_functions
        ⟨"requires_action", .submitToolOutputsAction
          [.requiredFunctionToolCall "call_1" "fetch_weather" [("location", "Stockholm")],
           .requiredFunctionToolCall "call_2" "no_such_function" []]⟩).1).flatten.length =
      (([ToolCall.requiredFunctionToolCall "call_1" "fetch_weather" [("location", "Stockholm")],
         .requiredFunctionToolCall "call_2" "no_such_function" []] : List ToolCall).filter
        (fun tc => tc.isFunctionCall && !callRaised agent_functions tc)).length :=
  claim_C1_outputs_match_successes agent_functions
    ⟨"requires_action", .submitToolOutputsAction
      [.requiredFunctionToolCall "call_1" "fetch_weather" [("location", "Stockholm")],
       .requiredFunctionToolCall "call_2" "no_such_function" []]⟩
    [.requiredFunctionToolCall "call_1" "fetch_weather" [("location", "Stockholm")],
     .requiredFunctionToolCall "call_2" "no_such_function" []]
    rfl rfl (by decide)

/-- Polling a requires_action run with an empty SubmitToolOutputsAction
cancels the run and breaks out of the loop at once. -/
theorem runLoop_cancel_on_empty (reg : Registry) (run0 r : Run)
    (rest : List Run)
    (h0 : (["queued", "in_progress", "requires_action"].contains run0.status) = true)
    (h1 : r.status = "requires_action")
    (h2 : r.required_action = .submitToolOutputsAction []) :
    runLoop reg run0 (r :: rest) =
      ([.polled "requires_action", .cancelledRun], some r) := by
  have hp : processIteration reg r = ([.cancelledRun], true) := by
    unfold processIteration
    rw [h2, h1]
    rfl
  unfold runLoop
  rw [if_pos h0]
  simp [hp, h1]

/-- Claim C2: whenever the loop polls a run in requires_action with a
SubmitToolOutputsAction carrying no tool calls, it cancels the run and
exits at once — whatever the rest of the remote script holds, no
further poll, invocation or submission happens and the cancel is the
last emitted effect. -/
theorem claim_C2_empty_action_cancels (reg : Registry) (run0 r : Run)
    (rest : List Run)
    (h0 : (["queued", "in_progress", "requires_action"].contains run0.status) = true)
    (h1 : r.status = "requires_action")
    (h2 : r.required_action = .submitToolOutputsAction []) :
    runLoop reg run0 (r :: rest) =
      ([.polled "requires_action", .cancelledRun], some r) :=
  runLoop_cancel_on_empty reg run0 r rest h0 h1 h2

/-- Witness for claim C2 on a concrete script. -/
theorem claim_C2_witness :
    runLoop agent_functions ⟨"queued", .noAction⟩
      [⟨"requires_action", .submitToolOutputsAction []⟩] =
      ([.polled "requires_action", .cancelledRun],
       some ⟨"requires_action", .submitToolOutputsAction []⟩) :=
  claim_C2_empty_action_cancels agent_functions ⟨"queued", .noAction⟩
    ⟨"requires_action", .submitToolOutputsAction []⟩ [] rfl rfl rfl

/-- Claim C3: a pending function call whose invocation raises (registry
lookup miss included) is logged and skipped, and the remaining calls of
the batch are processed exactly as they would be without it: events
before and after it are unchanged, its only trace is the log entry, the
outputs are those of the other calls, and the iteration does not break
the loop. -/
theorem claim_C3_failure_is_isolated (reg : Registry) (pre post : List ToolCall)
    (i n : String) (a : List (String × String)) (e : String)
    (hfail : executeToolCall reg (.requiredFunctionToolCall i n a) = .error e) :
    processToolCalls reg (pre ++ .requiredFunctionToolCall i n a :: post) =
      ((processToolCalls reg pre).1 ++
         .executed i :: .errorLogged i e :: (processToolCalls reg post).1,
       (processToolCalls reg pre).2 ++ (processToolCalls reg post).2) ∧
    (processIteration reg ⟨"requires_action", .submitToolOutputsAction
        (pre ++ .requiredFunctionToolCall i n a :: post)⟩).2 = false := by
  constructor
  · have hmid : processToolCalls reg (.requiredFunctionToolCall i n a :: post) =
        (.executed i :: .errorLogged i e :: (processToolCalls reg post).1,
         (processToolCalls reg post).2) := by
      simp [processToolCalls, hfail]
    rw [processToolCalls_append, hmid]
  · rw [Bool.eq_false_iff]
    intro hbrk
    have := (processIteration_break reg _).1 hbrk
    rcases this with ⟨-, hact⟩
    simp only [RequiredAction.submitToolOutputsAction.injEq] at hact
    exact List.append_ne_nil_of_right_ne_nil pre (List.cons_ne_nil _ _) hact

/-- Witness for claim C3: an unknown function between two good calls. -/
theorem claim_C3_witness :
    processToolCalls agent_functions
      ([.requiredFunctionToolCall "call_a" "check_network_status" [("location", "Stockholm")]] ++
        .requiredFunctionToolCall "call_b" "no_such_function" [] ::
          [.requiredFunctionToolCall "call_c" "fetch_weather" [("location", "Tokyo")]]) =
      ((processToolCalls agent_functions
          [.requiredFunctionToolCall "call_a" "check_network_status" [("location", "Stockholm")]]).1 ++
         .executed "call_b" ::
           .errorLogged "call_b" "Unknown function: no_such_function" ::
             (processToolCalls agent_functions
               [.requiredFunctionToolCall "call_c" "fetch_weather" [("location", "Tokyo")]]).1,
       (processToolCalls agent_functions
          [.requiredFunctionToolCall "call_a" "check_network_status" [("location", "Stockholm")]]).2 ++
         (processToolCalls agent_functions
           [.requiredFunctionToolCall "call_c" "fetch_weather" [("location", "Tokyo")]]).2) ∧
    (processIteration agent_functions ⟨"requires_action", .submitToolOutputsAction
        ([.requiredFunctionToolCall "call_a" "check_network_status" [("location", "Stockholm")]] ++
          .requiredFunctionToolCall "call_b" "no_such_function" [] ::
            [.requiredFunctionToolCall "call_c" "fetch_weather" [("location", "Tokyo")]])⟩).2 = false :=
  claim_C3_failure_is_isolated agent_functions
    [.requiredFunctionToolCall "call_a" "check_network_status" [("location", "Stockholm")]]
    [.requiredFunctionToolCall "call_c" "fetch_weather" [("location", "Tokyo")]]
    "call_b" "no_such_function" [] "Unknown function: no_such_function" rfl

/-- Claim C4: with the notebook registry and one pending fetch_weather
call for Stockholm, the iteration submits exactly one batch holding
exactly one ToolOutput, whose output is the json.dumps body of
weather: Snowy, -5°C; and a successful result is coerced to a string —
a str passes through unchanged, anything else is JSON-encoded. -/
theorem claim_C4_stockholm_example :
    submittedBatches (processIteration agent_functions
        ⟨"requires_action", .submitToolOutputsAction
          [.requiredFunctionToolCall "call_w" "fetch_weather"
            [("location", "Stockholm")]]⟩).1 =
      [[⟨"call_w", fetch_weather "Stockholm"⟩]] ∧
    fetch_weather "Stockholm" =
      JsonVal.dumps (.obj (.cons "weather" (.str "Snowy, -5°C") .nil)) ∧
    (∀ s, coerceOutput (.pyStr s) = s) ∧
    (∀ j, coerceOutput (.pyVal j) = JsonVal.dumps j) :=
  ⟨by decide, by decide, fun s => rfl, fun j => rfl⟩

/-- Claim C7: in a requires_action iteration over a non-empty batch,
everything collected is submitted in one single
submit_tool_outputs_to_run call, and when nothing was collected no
submission call happens at all. -/
theorem claim_C7_one_submission_or_none (reg : Registry) (r : Run)
    (tcs : List ToolCall)
    (h1 : r.status = "requires_action")
    (h2 : r.required_action = .submitToolOutputsAction tcs)
    (h3 : tcs ≠ []) :
    submittedBatches (processIteration reg r).1 =
      if (processToolCalls reg tcs).2.isEmpty then []
      else [(processToolCalls reg tcs).2] :=
  processIteration_submitted reg r tcs h1 h2 h3

/-- Witness for claim C7, on a batch whose two calls both fail (no
submission) — and, for contrast, the non-empty side is exercised by the
other concrete runs of this development. -/
theorem claim_C7_witness :
    submittedBatches (processIteration agent_functions
        ⟨"requires_action", .submitToolOutputsAction
          [.requiredFunctionToolCall "call_1" "fetch_weather" [("location", "Stockholm")],
           .requiredFunctionToolCall "call_2" "no_such_function" []]⟩).1 =
      if (processToolCalls agent_functions
            [.requiredFunctionToolCall "call_1" "fetch_weather" [("location", "Stockholm")],
             .requiredFunctionToolCall "call_2" "no_such_function" []]).2.isEmpty then []
      else [(processToolCalls agent_functions
            [.requiredFunctionToolCall "call_1" "fetch_weather" [("location", "Stockholm")],
             .requiredFunctionToolCall "call_2" "no_such_function" []]).2] :=
  claim_C7_one_submission_or_none agent_functions
    ⟨"requires_action", .submitToolOutputsAction
      [.requiredFunctionToolCall "call_1" "fetch_weather" [("location", "Stockholm")],
       .requiredFunctionToolCall "call_2" "no_such_function" []]⟩
    [.requiredFunctionToolCall "call_1" "fetch_weather" [("location", "Stockholm")],
     .requiredFunctionToolCall "call_2" "no_such_function" []]
    rfl rfl (by decide)

/-- Claim C10: a pending call that is not a RequiredFunctionToolCall is
passed over silently — processing a batch starting with one is
literally processing the batch without it (no event, no output, no
log) — and consequently, on a batch of one succeeding function call and
one non-function call, fewer outputs are submitted than there are calls
that did not raise. -/
theorem claim_C10_isinstance_filter :
    (∀ (reg : Registry) (i : String) (rest : List ToolCall),
        processToolCalls reg (.otherToolCall i :: rest) = processToolCalls reg rest) ∧
    (processToolCalls agent_functions
        [.requiredFunctionToolCall "call_1" "fetch_weather" [("location", "Stockholm")],
         .otherToolCall "call_2"]).2.length <
      (([ToolCall.requiredFunctionToolCall "call_1" "fetch_weather" [("location", "Stockholm")],
         .otherToolCall "call_2"] : List ToolCall).filter
        (fun tc => !callRaised agent_functions tc)).length :=
  ⟨fun reg i rest => rfl, by decide⟩

/-- A status outside the polling set is in particular not
requires_action. -/
theorem not_polling_not_action (s : String)
    (h : (["queued", "in_progress", "requires_action"].contains s) = false) :
    (s == "requires_action") = false := by
  by_contra hc
  rw [Bool.not_eq_false] at hc
  have hs : s = "requires_action" := by simpa using hc
  subst hs
  exact absurd h (by decide)

/-- A run outside the polling set stops the loop before any further
remote interaction. -/
theorem runLoop_not_pollable (reg : Registry) (run : Run) (script : List Run)
    (h : (["queued", "in_progress", "requires_action"].contains run.status) = false) :
    runLoop reg run script = ([], some run) := by
  cases script with
  | nil => simp only [runLoop]; rw [h]; simp
  | cons r rest => simp only [runLoop]; rw [h]; simp

/-- An iteration over a run that is not in requires_action emits
nothing and does not break. -/
theorem processIteration_not_action (reg : Registry) (r : Run)
    (h : (r.status == "requires_action") = false) :
    processIteration reg r = ([], false) := by
  unfold processIteration
  rw [h]
  simp

/-- Claim C5, counterexample.  The claim says the loop continues
iterating exactly when the observed status lies in
queued / in_progress / requires_action.  A requires_action observation
whose SubmitToolOutputsAction carries no calls refutes the
continuation direction: the status is in the set, yet the loop cancels
and exits — the next scripted state (in_progress) is never polled. -/
theorem claim_C5_counterexample :
    (["queued", "in_progress", "requires_action"].contains "requires_action") = true ∧
    runLoop agent_functions ⟨"queued", .noAction⟩
        [⟨"requires_action", .submitToolOutputsAction []⟩,
         ⟨"in_progress", .noAction⟩] =
      ([.polled "requires_action", .cancelledRun],
       some ⟨"requires_action", .submitToolOutputsAction []⟩) ∧
    ¬ (Event.polled "in_progress" ∈
        (runLoop agent_functions ⟨"queued", .noAction⟩
          [⟨"requires_action", .submitToolOutputsAction []⟩,
           ⟨"in_progress", .noAction⟩]).1) := by
  refine ⟨rfl, by decide, by decide⟩

/-- Claim C5, amended: the loop exits as soon as a status outside
queued / in_progress / requires_action is observed, and such an
observation is absorbing (the one poll that saw it is the last remote
interaction, whatever the script still holds); on a status inside the
set the loop polls on, except that a requires_action observation whose
SubmitToolOutputsAction is empty cancels the run and exits. -/
theorem claim_C5_exit_conditions (reg : Registry) :
    (∀ (run : Run) (script : List Run),
        (["queued", "in_progress", "requires_action"].contains run.status) = false →
        runLoop reg run script = ([], some run)) ∧
    (∀ (run0 r : Run) (rest : List Run),
        (["queued", "in_progress", "requires_action"].contains run0.status) = true →
        (["queued", "in_progress", "requires_action"].contains r.status) = false →
        runLoop reg run0 (r :: rest) = ([.polled r.status], some r)) ∧
    (∀ (run0 r : Run) (rest : List Run),
        (["queued", "in_progress", "requires_action"].contains run0.status) = true →
        (["queued", "in_progress", "requires_action"].contains r.status) = true →
        ¬ (r.status = "requires_action" ∧
            r.required_action = .submitToolOutputsAction []) →
        runLoop reg run0 (r :: rest) =
          (.polled r.status ::
             ((processIteration reg r).1 ++ (runLoop reg r rest).1),
           (runLoop reg r rest).2)) ∧
    (∀ (run0 r : Run) (rest : List Run),
        (["queued", "in_progress", "requires_action"].contains run0.status) = true →
        r.status = "requires_action" →
        r.required_action = .submitToolOutputsAction [] →
        runLoop reg run0 (r :: rest) =
          ([.polled "requires_action", .cancelledRun], some r)) := by
  refine ⟨?_, ?_, ?_, ?_⟩
  · exact fun run script h => runLoop_not_pollable reg run script h
  · intro run0 r rest h0 h1
    have hit := processIteration_not_action reg r (not_polling_not_action _ h1)
    have hrest := runLoop_not_pollable reg r rest h1
    simp only [runLoop]
    rw [if_pos h0]
    simp only [hit, hrest]
    simp
  · intro run0 r rest h0 h1 hno
    have hbrk : (processIteration reg r).2 = false := by
      rw [Bool.eq_false_iff]
      intro hb
      exact hno ((processIteration_break reg r).1 hb)
    simp only [runLoop]
    rw [if_pos h0]
    simp only [hbrk]
    simp
  · intro run0 r rest h0 h1 h2
    exact runLoop_cancel_on_empty reg run0 r rest h0 h1 h2

/-- Witness for the amended claim C5, exercising all four branches on
concrete runs. -/
theorem claim_C5_witness :
    runLoop agent_functions ⟨"completed", .noAction⟩ [] =
      ([], some ⟨"completed", .noAction⟩) ∧
    runLoop agent_functions ⟨"queued", .noAction⟩ [⟨"failed", .noAction⟩] =
      ([.polled "failed"], some ⟨"failed", .noAction⟩) ∧
    runLoop agent_functions ⟨"queued", .noAction⟩ [⟨"in_progress", .noAction⟩] =
      (.polled "in_progress" ::
         ((processIteration agent_functions ⟨"in_progress", .noAction⟩).1 ++
           (runLoop agent_functions ⟨"in_progress", .noAction⟩ []).1),
       (runLoop agent_functions ⟨"in_progress", .noAction⟩ []).2) ∧
    runLoop agent_functions ⟨"queued", .noAction⟩
        [⟨"requires_action", .submitToolOutputsAction []⟩] =
      ([.polled "requires_action", .cancelledRun],
       some ⟨"requires_action", .submitToolOutputsAction []⟩) :=
  ⟨(claim_C5_exit_conditions agent_functions).1 ⟨"completed", .noAction⟩ [] rfl,
   (claim_C5_exit_conditions agent_functions).2.1 ⟨"queued", .noAction⟩
     ⟨"failed", .noAction⟩ [] rfl rfl,
   (claim_C5_exit_conditions agent_functions).2.2.1 ⟨"queued", .noAction⟩
     ⟨"in_progress", .noAction⟩ [] rfl rfl (by decide),
   (claim_C5_exit_conditions agent_functions).2.2.2 ⟨"queued", .noAction⟩
     ⟨"requires_action", .submitToolOutputsAction []⟩ [] rfl rfl rfl⟩

/-- The loop trace is exactly the concatenation of its per-poll
segments: one polled event per get_run response followed by the events
of that same iteration. -/
theorem runLoop_events_segments (reg : Registry) (run : Run)
    (script : List Run) :
    (runLoop reg run script).1 =
      ((pollSegments reg run script).map
        (fun p => Event.polled p.1.status :: p.2)).flatten := by
  induction script generalizing run with
  | nil =>
      simp only [runLoop, pollSegments]
      split <;> simp
  | cons r rest ih =>
      simp only [runLoop, pollSegments]
      by_cases hc : (["queued", "in_progress", "requires_action"].contains run.status) = true
      · rw [if_pos hc, if_pos hc]
        by_cases hb : (processIteration reg r).2 = true
        · rw [if_pos hb, if_pos hb]
          simp
        · rw [if_neg hb, if_neg hb]
          simp [ih r]
      · rw [if_neg hc, if_neg hc]
        simp

/-- Every segment of the per-poll decomposition pairs a polled run with
the events of its own iteration. -/
theorem pollSegments_iteration_events (reg : Registry) (run : Run)
    (script : List Run) (p : Run × List Event)
    (hp : p ∈ pollSegments reg run script) :
    p.2 = (processIteration reg p.1).1 := by
  induction script generalizing run with
  | nil => simp [pollSegments] at hp
  | cons r rest ih =>
      simp only [pollSegments] at hp
      by_cases hc : (["queued", "in_progress", "requires_action"].contains run.status) = true
      · rw [if_pos hc] at hp
        by_cases hb : (processIteration reg r).2 = true
        · rw [if_pos hb] at hp
          simp only [List.mem_singleton] at hp
          subst hp
          rfl
        · rw [if_neg hb] at hp
          rcases List.mem_cons.1 hp with hp | hp
          · subst hp
            rfl
          · exact ih r hp
      · rw [if_neg hc] at hp
        simp at hp

/-- Claim C6: the loop trace decomposes into per-poll segments, each
polled run paired with the events of its own iteration, and a
submission event of an iteration carries exactly the outputs collected
over the tool calls delivered in that same requires_action read — so
every submitted ToolOutput id is the id of a tool call of the batch
read in the same polling iteration, never of another read. -/
theorem claim_C6_output_ids_from_same_batch (reg : Registry) (run : Run)
    (script : List Run) :
    ((runLoop reg run script).1 =
      ((pollSegments reg run script).map
        (fun p => Event.polled p.1.status :: p.2)).flatten) ∧
    (∀ p ∈ pollSegments reg run script,
        p.2 = (processIteration reg p.1).1) ∧
    (∀ (r : Run) (outs : List ToolOutput),
        Event.submitted outs ∈ (processIteration reg r).1 →
        ∃ tcs, r.status = "requires_action" ∧
          r.required_action = .submitToolOutputsAction tcs ∧
          outs = (processToolCalls reg tcs).2 ∧
          ∀ o ∈ outs, o.tool_call_id ∈ tcs.map ToolCall.id) := by
  refine ⟨runLoop_events_segments reg run script,
    fun p hp => pollSegments_iteration_events reg run script p hp,
    fun r outs h => ?_⟩
  obtain ⟨tcs, hs, ha, houts⟩ := submitted_of_iteration reg r outs h
  exact ⟨tcs, hs, ha, houts,
    fun o ho => processToolCalls_mem_ids reg tcs o (houts ▸ ho)⟩

/-- Witness for claim C6 on a concrete one-iteration script: the trace
decomposition, the segment of the requires_action poll, and the
submission of that iteration bound to its own batch. -/
theorem claim_C6_witness :
    ((runLoop agent_functions ⟨"queued", .noAction⟩ [runW]).1 =
      ((pollSegments agent_functions ⟨"queued", .noAction⟩ [runW]).map
        (fun p => Event.polled p.1.status :: p.2)).flatten) ∧
    ((runW, (processIteration agent_functions runW).1).2 =
      (processIteration agent_functions
        (runW, (processIteration agent_functions runW).1).1).1) ∧
    (∃ tcs, runW.status = "requires_action" ∧
      runW.required_action = .submitToolOutputsAction tcs ∧
      [(⟨"call_w", fetch_weather "Stockholm"⟩ : ToolOutput)] =
        (processToolCalls agent_functions tcs).2 ∧
      ∀ o ∈ [(⟨"call_w", fetch_weather "Stockholm"⟩ : ToolOutput)],
        o.tool_call_id ∈ tcs.map ToolCall.id) :=
  ⟨(claim_C6_output_ids_from_same_batch agent_functions
      ⟨"queued", .noAction⟩ [runW]).1,
   (claim_C6_output_ids_from_same_batch agent_functions
      ⟨"queued", .noAction⟩ [runW]).2.1
     (runW, (processIteration agent_functions runW).1) (by decide),
   (claim_C6_output_ids_from_same_batch agent_functions
      ⟨"queued", .noAction⟩ [runW]).2.2
     runW [⟨"call_w", fetch_weather "Stockholm"⟩] (by decide)⟩

/-- Claim C8: two registries that can only differ in the values their
functions return — every call raises in one exactly when it raises in
the other, with the same exception — drive the loop through the same
control flow on any script: the event traces agree once each submitted
output is reduced to its call id, and the final run agrees; the loop
never branches on the business content of a result. -/
theorem claim_C8_output_noninterference (reg1 reg2 : Registry)
    (h : ∀ tc, execShape reg1 tc = execShape reg2 tc) (run : Run)
    (script : List Run) :
    (runLoop reg1 run script).1.map eventShape =
      (runLoop reg2 run script).1.map eventShape ∧
    (runLoop reg1 run script).2 = (runLoop reg2 run script).2 := by
  induction script generalizing run with
  | nil => simp [runLoop]
  | cons r rest ih =>
      simp only [runLoop]
      by_cases hc : (["queued", "in_progress", "requires_action"].contains run.status) = true
      · rw [if_pos hc, if_pos hc]
        have hit := processIteration_shape reg1 reg2 h r
        by_cases hb : (processIteration reg2 r).2 = true
        · rw [hit.2, if_pos hb, if_pos hb]
          refine ⟨?_, rfl⟩
          simp [eventShape, hit.1]
        · rw [hit.2, if_neg hb, if_neg hb]
          refine ⟨?_, (ih r).2⟩
          simp [eventShape, hit.1, (ih r).1]
      · rw [if_neg hc, if_neg hc]
        exact ⟨rfl, rfl⟩

/-- The variant registry has the same exception shape as the notebook
one on every tool call. -/
theorem execShape_variant_eq (tc : ToolCall) :
    execShape agent_functions tc = execShape agent_functions_variant tc := by
  cases tc with
  | otherToolCall i => rfl
  | requiredFunctionToolCall i n a =>
      by_cases hn : n = "fetch_weather"
      · subst hn
        simp only [execShape, executeToolCall, agent_functions,
          agent_functions_variant, List.lookup, beq_self_eq_true]
        unfold fetch_weather_tool fetch_weather_variant
        cases hall : a.all (fun p => p.1 == "location") with
        | false => simp [hall]
        | true =>
            simp only [hall, if_true]
            cases kwLookup a "location" <;> rfl
      · have hn2 : (n == "fetch_weather") = false := by
          rw [beq_eq_false_iff_ne]
          exact hn
        simp [execShape, executeToolCall, agent_functions,
          agent_functions_variant, List.lookup, hn2]

/-- Witness for claim C8: the notebook registry against the variant on
a script with one answered weather call. -/
theorem claim_C8_witness :
    (runLoop agent_functions ⟨"queued", .noAction⟩
        [⟨"requires_action", .submitToolOutputsAction
            [.requiredFunctionToolCall "call_w" "fetch_weather" [("location", "Stockholm")]]⟩,
         ⟨"completed", .noAction⟩]).1.map eventShape =
      (runLoop agent_functions_variant ⟨"queued", .noAction⟩
        [⟨"requires_action", .submitToolOutputsAction
            [.requiredFunctionToolCall "call_w" "fetch_weather" [("location", "Stockholm")]]⟩,
         ⟨"completed", .noAction⟩]).1.map eventShape ∧
    (runLoop agent_functions ⟨"queued", .noAction⟩
        [⟨"requires_action", .submitToolOutputsAction
            [.requiredFunctionToolCall "call_w" "fetch_weather" [("location", "Stockholm")]]⟩,
         ⟨"completed", .noAction⟩]).2 =
      (runLoop agent_functions_variant ⟨"queued", .noAction⟩
        [⟨"requires_action", .submitToolOutputsAction
            [.requiredFunctionToolCall "call_w" "fetch_weather" [("location", "Stockholm")]]⟩,
         ⟨"completed", .noAction⟩]).2 :=
  claim_C8_output_noninterference agent_functions agent_functions_variant
    execShape_variant_eq ⟨"queued", .noAction⟩
    [⟨"requires_action", .submitToolOutputsAction
        [.requiredFunctionToolCall "call_w" "fetch_weather" [("location", "Stockholm")]]⟩,
     ⟨"completed", .noAction⟩]

/-- Claim C9: every completed invocation of chat_with_documents makes
exactly four remote calls, chained: an intent-rewriting chat call over
the rendered conversation, an embedding call on the extracted rewritten
query, one hybrid search carrying both that query text and its
embedding vector, and only then the final generation call whose context
is the retrieved documents. -/
theorem claim_C9_two_stage_retrieval (E : Type) (env : RagEnv)
    (o : RagOracles E) (messages : List PyMessage)
    (calls : List (RagCall E)) (resp : String)
    (h : chat_with_documents E env o messages = .ok (calls, resp)) :
    ∃ enhanced : String,
      ((jsonLoadsFlat (o.chatContent
            [("system", get_intent_system_message (pyReprMessages messages))])).bind
          (fun obj => obj.lookup "intent")) = some enhanced ∧
      calls =
        [.chatCompleteCall env.chatModel
            [("system", get_intent_system_message (pyReprMessages messages))] none,
         .embedCall env.embeddingModel enhanced,
         .searchCall env.searchIndexName enhanced (o.embedVector enhanced) 50
           "text_vector" 3,
         .chatCompleteCall env.chatModel
            (("system", get_completion_system_message (pyReprDocuments
                ((o.searchHits enhanced (o.embedVector enhanced) 3).map
                  (fun hh => Document.mk hh.id hh.content hh.title hh.url)))) ::
              messages.map (fun m => ("user", m.content))) (some 1000)] ∧
      resp = o.chatContent
          (("system", get_completion_system_message (pyReprDocuments
              ((o.searchHits enhanced (o.embedVector enhanced) 3).map
                (fun hh => Document.mk hh.id hh.content hh.title hh.url)))) ::
            messages.map (fun m => ("user", m.content))) := by
  unfold chat_with_documents get_documents at h
  dsimp only at h
  cases hq : (jsonLoadsFlat (o.chatContent
      [("system", get_intent_system_message (pyReprMessages messages))])).bind
      (fun obj => obj.lookup "intent") with
  | none => rw [hq] at h; simp at h
  | some q =>
      rw [hq] at h
      simp only [Except.ok.injEq, Prod.mk.injEq] at h
      obtain ⟨hcalls, hresp⟩ := h
      exact ⟨q, rfl, by simpa using hcalls.symm, hresp.symm⟩

/-- Witness for claim C9 on one concrete conversation. -/
theorem claim_C9_witness :
    ∃ enhanced : String,
      ((jsonLoadsFlat (ragOraclesW.chatContent
            [("system", get_intent_system_message
                (pyReprMessages [⟨"user", "hi there"⟩]))])).bind
          (fun obj => obj.lookup "intent")) = some enhanced ∧
      ([.chatCompleteCall "gpt-4o"
            [("system", get_intent_system_message
                (pyReprMessages [⟨"user", "hi there"⟩]))] none,
        .embedCall "text-embedding-3-large" "llms versus diffusion models",
        .searchCall "myindex" "llms versus diffusion models" 7 50 "text_vector" 3,
        .chatCompleteCall "gpt-4o"
            (("system", get_completion_system_message
                (pyReprDocuments [⟨"d1", "content1", "title1", "url1"⟩])) ::
              [("user", "hi there")]) (some 1000)] : List (RagCall Nat)) =
        [.chatCompleteCall ragEnvW.chatModel
            [("system", get_intent_system_message
                (pyReprMessages [⟨"user", "hi there"⟩]))] none,
         .embedCall ragEnvW.embeddingModel enhanced,
         .searchCall ragEnvW.searchIndexName enhanced
           (ragOraclesW.embedVector enhanced) 50 "text_vector" 3,
         .chatCompleteCall ragEnvW.chatModel
            (("system", get_completion_system_message (pyReprDocuments
                ((ragOraclesW.searchHits enhanced (ragOraclesW.embedVector enhanced) 3).map
                  (fun hh => Document.mk hh.id hh.content hh.title hh.url)))) ::
              ([⟨"user", "hi there"⟩] : List PyMessage).map
                (fun m => ("user", m.content))) (some 1000)] ∧
      "\x7b\"intent\": \"llms versus diffusion models\"\x7d" =
        ragOraclesW.chatContent
          (("system", get_completion_system_message (pyReprDocuments
              ((ragOraclesW.searchHits enhanced (ragOraclesW.embedVector enhanced) 3).map
                (fun hh => Document.mk hh.id hh.content hh.title hh.url)))) ::
            ([⟨"user", "hi there"⟩] : List PyMessage).map
              (fun m => ("user", m.content))) :=
  claim_C9_two_stage_retrieval Nat ragEnvW ragOraclesW [⟨"user", "hi there"⟩]
    [.chatCompleteCall "gpt-4o"
        [("system", get_intent_system_message
            (pyReprMessages [⟨"user", "hi there"⟩]))] none,
     .embedCall "text-embedding-3-large" "llms versus diffusion models",
     .searchCall "myindex" "llms versus diffusion models" 7 50 "text_vector" 3,
     .chatCompleteCall "gpt-4o"
        (("system", get_completion_system_message
            (pyReprDocuments [⟨"d1", "content1", "title1", "url1"⟩])) ::
          [("user", "hi there")]) (some 1000)]
    "\x7b\"intent\": \"llms versus diffusion models\"\x7d" (by rfl)

end AzureGenAI
